import Mathlib

set_option maxHeartbeats 1000000

/-!
Verification development for the darkwallet gateway client
(src/client/gateway.js).  The client is embedded shallowly: JavaScript
values are the inductive JsValue, the client state (handler_map, frames
sent on the websocket, frames observed by the on_message hook, console
log lines, and caller-callback invocation events) is GatewayState, and
each prototype method of GatewayClient becomes a Lean function from
state to state paired with an optional propagated (thrown) JS error.
-/

/-- JavaScript errors that the gateway code can throw.
thrownString models the literal throw of a string in _check_function;
syntaxError models JSON.parse throwing on unparseable input; typeError
models property access on null/undefined and calling a non-function. -/
inductive JsErr where
  | thrownString (s : String)
  | syntaxError
  | typeError (msg : String)
deriving DecidableEq, Repr

mutual

/-- JavaScript values as used by the gateway client: JSON data plus
undefined and function values.  Numbers are modelled as integers (every
number the client manipulates is an integer). -/
inductive JsValue where
  | undef
  | null
  | bool (b : Bool)
  | num (n : Int)
  | str (s : String)
  | arr (elems : List JsValue)
  | obj (fields : List (String × JsValue))
  | fn (h : JsHandler)

/-- The function values that occur in the gateway client.  Caller
supplied callbacks are opaque (userCb, identified by a tag; invoking one
records an event).  fetchAdapter is the closure
fun response => handle_fetch(response.error, response.result[0]) built
by every fetch_* wrapper; subUpdater is the closure built by subscribe
and renew, which additionally registers handle_update under the key
"update." ++ address when handle_update is truthy. -/
inductive JsHandler where
  | userCb (tag : Nat)
  | fetchAdapter (handle_fetch : JsValue)
  | subUpdater (address : String) (handle_fetch : JsValue) (handle_update : JsValue)

end

/-- JavaScript truthiness. -/
def truthy : JsValue → Bool
  | .undef => false
  | .null => false
  | .bool b => b
  | .num n => n != 0
  | .str s => s ≠ ""
  | .arr _ => true
  | .obj _ => true
  | .fn _ => true

/-- Property lookup in an object field list / in handler_map, returning
undefined when the key is absent (JavaScript object indexing). -/
def objGet : List (String × JsValue) → String → JsValue
  | [], _ => (.undef)
  | (k', v) :: rest, k => if k' = k then v else objGet rest k

/-- Property assignment obj[k] = v: replaces the binding in place when k
is present, otherwise appends it (JavaScript object assignment never
produces two bindings for one key). -/
def mapInsert : List (String × JsValue) → String → JsValue → List (String × JsValue)
  | [], k, v => [(k, v)]
  | (k', v') :: rest, k, v =>
      if k' = k then (k, v) :: rest else (k', v') :: mapInsert rest k v

/-- Decimal digits of a natural number (fuel-based recursion on n / 10). -/
def natDecimalAux : Nat → Nat → List Char
  | 0, _ => []
  | fuel + 1, n => if n = 0 then [] else natDecimalAux fuel (n / 10) ++ [Char.ofNat (48 + n % 10)]

/-- Decimal numeral of a natural number, as JavaScript String(n). -/
def natDecimal (n : Nat) : String :=
  if n = 0 then "0" else String.mk (natDecimalAux n n)

/-- Decimal numeral of an integer, as JavaScript String(n). -/
def intDecimal (n : Int) : String :=
  if n < 0 then "-" ++ natDecimal n.natAbs else natDecimal n.natAbs

mutual

/-- JavaScript ToString coercion, as applied by string concatenation
("update." + address) and by property-key coercion (handler_map[id]).
Arrays stringify as their elements joined by commas with null and
undefined elements rendered empty; plain objects as "[object Object]". -/
def jsToKey : JsValue → String
  | .undef => "undefined"
  | .null => "null"
  | .bool true => "true"
  | .bool false => "false"
  | .num n => intDecimal n
  | .str s => s
  | .arr xs => jsToKeyElems xs
  | .obj _ => "[object Object]"
  | .fn _ => "function"

/-- Join of array elements for Array.prototype.toString. -/
def jsToKeyElems : List JsValue → String
  | [] => ""
  | [.null] => ""
  | [.undef] => ""
  | [x] => jsToKey x
  | .null :: xs => "," ++ jsToKeyElems xs
  | .undef :: xs => "," ++ jsToKeyElems xs
  | x :: xs => jsToKey x ++ "," ++ jsToKeyElems xs

end

/-- Escape a string for JSON.stringify output (quote and backslash; the
strings the client serializes contain no control characters). -/
def escapeChars : List Char → List Char
  | [] => []
  | c :: cs =>
      if c = '"' ∨ c = '\\' then '\\' :: c :: escapeChars cs else c :: escapeChars cs

mutual

/-- JSON.stringify on the values the client sends.  Object fields whose
value is undefined are omitted, undefined array elements render as null,
exactly as in JavaScript. -/
def stringify : JsValue → String
  | .undef => "null"
  | .null => "null"
  | .bool true => "true"
  | .bool false => "false"
  | .num n => intDecimal n
  | .str s => "\"" ++ String.mk (escapeChars s.data) ++ "\""
  | .arr xs => "[" ++ stringifyElems xs ++ "]"
  | .obj fs => "\x7b" ++ stringifyFields fs ++ "\x7d"
  | .fn _ => "null"

/-- Comma-joined serialization of array elements. -/
def stringifyElems : List JsValue → String
  | [] => ""
  | [x] => stringify x
  | x :: xs => stringify x ++ "," ++ stringifyElems xs

/-- Comma-joined serialization of object fields, omitting fields whose
value is undefined. -/
def stringifyFields : List (String × JsValue) → String
  | [] => ""
  | (_, .undef) :: fs => stringifyFields fs
  | (k, v) :: fs =>
      let rest := stringifyFields fs
      let item := "\"" ++ String.mk (escapeChars k.data) ++ "\":" ++ stringify v
      if rest = "" then item else item ++ "," ++ rest

end

/-- Skip JSON whitespace. -/
def skipWs : List Char → List Char
  | c :: cs => if c = ' ' ∨ c = '\n' ∨ c = '\t' ∨ c = '\r' then skipWs cs else c :: cs
  | [] => []

/-- Read a run of decimal digits, returning the accumulated value and
the rest of the input. -/
def readDigits : List Char → Nat → Nat × List Char
  | c :: cs, acc =>
      if c.isDigit then readDigits cs (acc * 10 + (c.toNat - 48)) else (acc, c :: cs)
  | [], acc => (acc, [])

/-- Read the body of a JSON string literal after the opening quote,
handling the escapes the gateway traffic can contain. -/
def readStrBody : List Char → Option (List Char × List Char)
  | [] => none
  | '"' :: rest => some ([], rest)
  | '\\' :: c :: rest =>
      match readStrBody rest with
      | none => none
      | some (s, rest') =>
          if c = '"' ∨ c = '\\' ∨ c = '/' then some (c :: s, rest')
          else if c = 'n' then some ('\n' :: s, rest')
          else if c = 't' then some ('\t' :: s, rest')
          else if c = 'r' then some ('\r' :: s, rest')
          else none
  | c :: rest =>
      match readStrBody rest with
      | none => none
      | some (s, rest') => some (c :: s, rest')

mutual

/-- Recursive-descent JSON value parser (fuel bounds the recursion
depth; JSON_parse supplies ample fuel for its input).  Numeric literals
are modelled as integers. -/
def parseVal : Nat → List Char → Option (JsValue × List Char)
  | 0, _ => none
  | fuel + 1, cs =>
      match skipWs cs with
      | 'n' :: 'u' :: 'l' :: 'l' :: rest => some (.null, rest)
      | 't' :: 'r' :: 'u' :: 'e' :: rest => some (.bool true, rest)
      | 'f' :: 'a' :: 'l' :: 's' :: 'e' :: rest => some (.bool false, rest)
      | '"' :: rest =>
          match readStrBody rest with
          | none => none
          | some (s, rest') => some (.str (String.mk s), rest')
      | '[' :: rest => parseArrElems fuel (skipWs rest)
      | '\x7b' :: rest => parseObjFields fuel (skipWs rest)
      | '-' :: c :: rest =>
          if c.isDigit then
            let (n, rest') := readDigits (c :: rest) 0
            some (.num (-(n : Int)), rest')
          else none
      | c :: rest =>
          if c.isDigit then
            let (n, rest') := readDigits (c :: rest) 0
            some (.num (n : Int), rest')
          else none
      | [] => none

/-- Parse the elements of an array after the opening bracket
(whitespace already skipped). -/
def parseArrElems : Nat → List Char → Option (JsValue × List Char)
  | 0, _ => none
  | fuel + 1, cs =>
      match cs with
      | ']' :: rest => some (.arr [], rest)
      | _ =>
          match parseVal fuel cs with
          | none => none
          | some (v, rest) =>
              match parseArrTail fuel (skipWs rest) with
              | none => none
              | some (vs, rest') => some (.arr (v :: vs), rest')

/-- Parse ", elem ... ]" after one array element. -/
def parseArrTail : Nat → List Char → Option (List JsValue × List Char)
  | 0, _ => none
  | fuel + 1, cs =>
      match cs with
      | ']' :: rest => some ([], rest)
      | ',' :: rest =>
          match parseVal fuel rest with
          | none => none
          | some (v, rest') =>
              match parseArrTail fuel (skipWs rest') with
              | none => none
              | some (vs, rest'') => some (v :: vs, rest'')
      | _ => none

/-- Parse the fields of an object after the opening brace (whitespace
already skipped).  Duplicate keys overwrite, as JSON.parse does. -/
def parseObjFields : Nat → List Char → Option (JsValue × List Char)
  | 0, _ => none
  | fuel + 1, cs =>
      match cs with
      | '\x7d' :: rest => some (.obj [], rest)
      | _ =>
          match parseObjRest fuel cs [] with
          | none => none
          | some (fs, rest) => some (.obj fs, rest)

/-- Parse "key : value (, key : value)* \x7d" accumulating fields. -/
def parseObjRest : Nat → List Char → List (String × JsValue) → Option (List (String × JsValue) × List Char)
  | 0, _, _ => none
  | fuel + 1, cs, acc =>
      match cs with
      | '"' :: rest =>
          match readStrBody rest with
          | none => none
          | some (k, rest') =>
              match skipWs rest' with
              | ':' :: rest'' =>
                  match parseVal fuel rest'' with
                  | none => none
                  | some (v, rest3) =>
                      let acc' := mapInsert acc (String.mk k) v
                      match skipWs rest3 with
                      | '\x7d' :: rest4 => some (acc', rest4)
                      | ',' :: rest4 => parseObjRest fuel (skipWs rest4) acc'
                      | _ => none
              | _ => none
      | _ => none

end

/-- JSON.parse, as used by _on_message: none models a thrown
SyntaxError. -/
def JSON_parse (s : String) : Option JsValue :=
  match parseVal (4 * s.length + 8) s.data with
  | none => none
  | some (v, rest) => if skipWs rest = [] then some v else none

/-- Property read v[k] with JavaScript throwing semantics: reading a
property of null or undefined throws a TypeError; any other non-object
value yields undefined; objects yield the field or undefined. -/
def getFieldE (v : JsValue) (k : String) : Except JsErr JsValue :=
  match v with
  | .null => .error (.typeError "Cannot read properties of null")
  | .undef => .error (.typeError "Cannot read properties of undefined")
  | .obj fs => .ok (objGet fs k)
  | _ => (.ok .undef)

/-- Index read v[i] with JavaScript throwing semantics. -/
def getIndexE (v : JsValue) (i : Nat) : Except JsErr JsValue :=
  match v with
  | .null => .error (.typeError "Cannot read properties of null")
  | .undef => .error (.typeError "Cannot read properties of undefined")
  | .arr xs => .ok (xs.getD i .undef)
  | _ => (.ok .undef)

/-- The argument pair (response.error, response.result[0]) that every
fetch adapter and every subscribe/renew ack closure computes before
calling the caller-supplied callback; evaluated left to right as in the
source expression handle_fetch(response["error"], response["result"][0]). -/
def extractPair (response : JsValue) : Except JsErr (JsValue × JsValue) := do
  let e ← getFieldE response "error"
  let r ← getFieldE response "result"
  let v ← getIndexE r 0
  pure (e, v)

/-- Total property read for a receiver already known not to be null or
undefined (used by the router after response.id has been read once). -/
def getFieldD (v : JsValue) (k : String) : JsValue :=
  match v with
  | .obj fs => objGet fs k
  | _ => (.undef)

/-- JavaScript loose equality response.name == "update": the string
itself matches, and an array matches through its ToString coercion;
numbers and booleans compare numerically against NaN and never match,
null, undefined, functions and plain objects never match. -/
def looseEqUpdate (v : JsValue) : Bool :=
  match v with
  | .str s => s = "update"
  | .arr xs => jsToKeyElems xs = "update"
  | _ => false

/-- State of one GatewayClient instance: the handler table, the frames
handed to websocket.send, the frames observed by the on_message hook,
the console.log lines, and the invocations of caller-supplied callbacks
(tag of the callback and its argument list), in order. -/
structure GatewayState where
  handler_map : List (String × JsValue)
  sent : List String
  observed : List String
  log : List String
  events : List (Nat × List JsValue)

/-- State of a freshly constructed client: handler_map starts empty. -/
def initState : GatewayState :=
  { handler_map := [], sent := [], observed := [], log := [], events := [] }

/-- Invoke a JavaScript value as a function with the given arguments.
Calling a non-function throws a TypeError.  A userCb invocation records
an event; a fetchAdapter extracts (error, result[0]) and forwards to its
wrapped callback; a subUpdater closure (built by subscribe/renew)
forwards the pair to handle_fetch and then, when handle_update is
truthy, registers it under "update." ++ address. -/
def invoke (st : GatewayState) (f : JsValue) (args : List JsValue) : GatewayState × Option JsErr :=
  match f with
  | .fn (.userCb tag) => ({ st with events := st.events ++ [(tag, args)] }, none)
  | .fn (.fetchAdapter handle_fetch) =>
      match extractPair (args.headD .undef) with
      | .error er => (st, some er)
      | .ok (e, v) => invoke st handle_fetch [e, v]
  | .fn (.subUpdater address handle_fetch handle_update) =>
      match extractPair (args.headD .undef) with
      | .error er => (st, some er)
      | .ok (e, v) =>
          match invoke st handle_fetch [e, v] with
          | (st', some er) => (st', some er)
          | (st', none) =>
              if truthy handle_update then
                ({ st' with handler_map := mapInsert st'.handler_map ("update." ++ address) handle_update }, none)
              else (st', none)
  | _ => (st, some (.typeError "is not a function"))

/-- GatewayClient._random_integer: Math.floor(Math.random() * 4294967296).
The randomness source is abstracted as the argument; the result always
lies in [0, 2^32). -/
def _random_integer (rand : Nat) : Nat :=
  rand % 4294967296

/-- GatewayClient._check_function: throws the string
"Parameter is not a function" unless the argument is a function. -/
def _check_function (func : JsValue) : Option JsErr :=
  match func with
  | .fn _ => none
  | _ => some (.thrownString "Parameter is not a function")

/-- The request envelope built by make_request, with fields id, command
and params in source order. -/
def requestEnvelope (rand : Nat) (command : String) (params : List JsValue) : JsValue :=
  .obj [("id", .num (_random_integer rand : Nat)), ("command", .str command), ("params", .arr params)]

/-- GatewayClient.prototype.make_request: checks the handler, builds and
serializes the request envelope, sends it, then registers the handler
under the decimal string of the allocated id. -/
def make_request (st : GatewayState) (rand : Nat) (command : String) (params : List JsValue) (handler : JsValue) : GatewayState × Option JsErr :=
  match _check_function handler with
  | some er => (st, some er)
  | none =>
      let id : Int := (_random_integer rand : Nat)
      let message := stringify (requestEnvelope rand command params)
      let st := { st with sent := st.sent ++ [message] }
      ({ st with handler_map := mapInsert st.handler_map (jsToKey (.num id)) handler }, none)

/-- GatewayClient.prototype.fetch_last_height. -/
def fetch_last_height (st : GatewayState) (rand : Nat) (handle_fetch : JsValue) : GatewayState × Option JsErr :=
  match _check_function handle_fetch with
  | some er => (st, some er)
  | none => make_request st rand "fetch_last_height" [] (.fn (.fetchAdapter handle_fetch))

/-- GatewayClient.prototype.fetch_transaction. -/
def fetch_transaction (st : GatewayState) (rand : Nat) (tx_hash : JsValue) (handle_fetch : JsValue) : GatewayState × Option JsErr :=
  match _check_function handle_fetch with
  | some er => (st, some er)
  | none => make_request st rand "fetch_transaction" [tx_hash] (.fn (.fetchAdapter handle_fetch))

/-- GatewayClient.prototype.fetch_history. -/
def fetch_history (st : GatewayState) (rand : Nat) (address : JsValue) (handle_fetch : JsValue) : GatewayState × Option JsErr :=
  match _check_function handle_fetch with
  | some er => (st, some er)
  | none => make_request st rand "fetch_history" [address] (.fn (.fetchAdapter handle_fetch))

/-- GatewayClient.prototype.fetch_block_header. -/
def fetch_block_header (st : GatewayState) (rand : Nat) (index : JsValue) (handle_fetch : JsValue) : GatewayState × Option JsErr :=
  match _check_function handle_fetch with
  | some er => (st, some er)
  | none => make_request st rand "fetch_block_header" [index] (.fn (.fetchAdapter handle_fetch))

/-- GatewayClient.prototype.fetch_block_transaction_hashes. -/
def fetch_block_transaction_hashes (st : GatewayState) (rand : Nat) (index : JsValue) (handle_fetch : JsValue) : GatewayState × Option JsErr :=
  match _check_function handle_fetch with
  | some er => (st, some er)
  | none => make_request st rand "fetch_block_transaction_hashes" [index] (.fn (.fetchAdapter handle_fetch))

/-- GatewayClient.prototype.fetch_spend. -/
def fetch_spend (st : GatewayState) (rand : Nat) (outpoint : JsValue) (handle_fetch : JsValue) : GatewayState × Option JsErr :=
  match _check_function handle_fetch with
  | some er => (st, some er)
  | none => make_request st rand "fetch_spend" [outpoint] (.fn (.fetchAdapter handle_fetch))

/-- GatewayClient.prototype.subscribe: no _check_function call; the
request callback is the closure that forwards the ack to handle_fetch
and then registers handle_update if it is truthy. -/
def subscribe (st : GatewayState) (rand : Nat) (address : String) (handle_fetch : JsValue) (handle_update : JsValue) : GatewayState × Option JsErr :=
  make_request st rand "subscribe_address" [.str address]
    (.fn (.subUpdater address handle_fetch handle_update))

/-- GatewayClient.prototype.renew: identical to subscribe except for the
command name. -/
def renew (st : GatewayState) (rand : Nat) (address : String) (handle_fetch : JsValue) (handle_update : JsValue) : GatewayState × Option JsErr :=
  make_request st rand "renew_address" [.str address]
    (.fn (.subUpdater address handle_fetch handle_update))

/-- The correlation key the router computes for a parsed frame:
"update." + response.address when response.name == "update", otherwise
the property-key coercion of response.id.  (Only evaluated once the
frame is known not to be null or undefined.) -/
def deriveKey (response : JsValue) : String :=
  if looseEqUpdate (getFieldD response "name") then
    "update." ++ jsToKey (getFieldD response "address")
  else
    jsToKey (getFieldD response "id")

/-- GatewayClient.prototype._on_message: fires the on_message hook,
parses the frame (a parse failure is an uncaught thrown SyntaxError),
reads response.id (throwing on a null frame), derives the correlation
key, and either logs "Handler not found" or calls the registered
handler with the full parsed frame. -/
def _on_message (st : GatewayState) (data : String) : GatewayState × Option JsErr :=
  let st := { st with observed := st.observed ++ [data] }
  match JSON_parse data with
  | none => (st, some .syntaxError)
  | some response =>
      match response with
      | .null => (st, some (.typeError "Cannot read properties of null"))
      | .undef => (st, some (.typeError "Cannot read properties of undefined"))
      | _ =>
          let key := deriveKey response
          let handler := objGet st.handler_map key
          if truthy handler then invoke st handler [response]
          else ({ st with log := st.log ++ ["Handler not found"] }, none)

/-- The two primitive state effects make_request performs, in source
order: hand the serialized envelope to the transport, then register the
handler.  Used to talk about the intermediate point of make_request. -/
inductive MicroOp where
  | sendOp (message : String)
  | registerOp (key : String) (handler : JsValue)

/-- Execute one primitive effect. -/
def runMicro (st : GatewayState) : MicroOp → GatewayState
  | .sendOp m => { st with sent := st.sent ++ [m] }
  | .registerOp k h => { st with handler_map := mapInsert st.handler_map k h }

/-- Execute a sequence of primitive effects. -/
def runTrace (st : GatewayState) : List MicroOp → GatewayState
  | [] => st
  | op :: ops => runTrace (runMicro st op) ops

/-- The effect trace of a successful make_request call, read off the
source: this.websocket.send(message) and then
this.handler_map[id] = handler. -/
def make_request_trace (rand : Nat) (command : String) (params : List JsValue) (handler : JsValue) : List MicroOp :=
  [ .sendOp (stringify (requestEnvelope rand command params)),
    .registerOp (jsToKey (.num (_random_integer rand : Nat))) handler ]

/-- States of the client reachable from construction through its public
operations and the message router (including runs on which an operation
threw: the state component is the state at the moment of the throw). -/
inductive Reachable : GatewayState → Prop where
  | init : Reachable initState
  | mk_request {st rand cmd params h} : Reachable st → Reachable (make_request st rand cmd params h).1
  | on_msg {st data} : Reachable st → Reachable (_on_message st data).1
  | sub {st rand addr hf hu} : Reachable st → Reachable (subscribe st rand addr hf hu).1
  | ren {st rand addr hf hu} : Reachable st → Reachable (renew st rand addr hf hu).1
  | flh {st rand hf} : Reachable st → Reachable (fetch_last_height st rand hf).1
  | ftx {st rand tx hf} : Reachable st → Reachable (fetch_transaction st rand tx hf).1
  | fhi {st rand a hf} : Reachable st → Reachable (fetch_history st rand a hf).1
  | fbh {st rand i hf} : Reachable st → Reachable (fetch_block_header st rand i hf).1
  | fbt {st rand i hf} : Reachable st → Reachable (fetch_block_transaction_hashes st rand i hf).1
  | fsp {st rand o hf} : Reachable st → Reachable (fetch_spend st rand o hf).1

/-- The two key spaces the client ever writes: decimal request ids
(registered by make_request) and topic keys "update." ++ address
(registered by the subscribe/renew ack closures). -/
def KeyShaped (k : String) : Prop :=
  (k.data.all Char.isDigit = true ∧ k ≠ "") ∨ ∃ a, k = "update." ++ a

/-- Invariant of the handler table: at most one binding per key, and
every key lies in one of the two key spaces. -/
def GoodTable (m : List (String × JsValue)) : Prop :=
  (m.map Prod.fst).Nodup ∧ ∀ p ∈ m, KeyShaped p.1

/-! ## Helper lemmas about the table, keys and the handler interpreter -/

theorem objGet_mapInsert_self (m : List (String × JsValue)) (k : String) (v : JsValue) :
    objGet (mapInsert m k v) k = v := by
  induction m with
  | nil => simp [mapInsert, objGet]
  | cons p rest ih =>
      obtain ⟨k', v'⟩ := p
      by_cases hk : k' = k
      · simp [mapInsert, hk, objGet]
      · simp [mapInsert, hk, objGet, ih]

theorem objGet_mapInsert_ne (m : List (String × JsValue)) (k k2 : String) (v : JsValue)
    (hne : k ≠ k2) : objGet (mapInsert m k v) k2 = objGet m k2 := by
  induction m with
  | nil => simp [mapInsert, objGet, hne]
  | cons p rest ih =>
      obtain ⟨k', v'⟩ := p
      by_cases hk : k' = k
      · subst hk
        simp [mapInsert, objGet, hne]
      · simp [mapInsert, hk, objGet, ih]

theorem mem_fst_mapInsert {m : List (String × JsValue)} {k a : String} {v : JsValue} :
    a ∈ (mapInsert m k v).map Prod.fst ↔ a = k ∨ a ∈ m.map Prod.fst := by
  induction m with
  | nil => simp [mapInsert]
  | cons p rest ih =>
      obtain ⟨k', v'⟩ := p
      by_cases hk : k' = k
      · subst hk
        simp [mapInsert]
      · simp [mapInsert, hk, ih]
        tauto

theorem nodup_fst_mapInsert {m : List (String × JsValue)} {k : String} {v : JsValue}
    (h : (m.map Prod.fst).Nodup) : ((mapInsert m k v).map Prod.fst).Nodup := by
  induction m with
  | nil => simp [mapInsert]
  | cons p rest ih =>
      obtain ⟨k', v'⟩ := p
      simp only [List.map_cons, List.nodup_cons] at h
      by_cases hk : k' = k
      · subst hk
        simpa [mapInsert] using h
      · simp only [mapInsert, hk, if_false, List.map_cons, List.nodup_cons]
        refine ⟨?_, ih h.2⟩
        intro hmem
        rcases mem_fst_mapInsert.mp hmem with rfl | hmem'
        · exact hk rfl
        · exact h.1 hmem'

theorem mem_mapInsert {m : List (String × JsValue)} {k : String} {v : JsValue} {p : String × JsValue}
    (hp : p ∈ mapInsert m k v) : p ∈ m ∨ p.1 = k := by
  induction m with
  | nil => simp [mapInsert] at hp; simp [hp]
  | cons q rest ih =>
      obtain ⟨k', v'⟩ := q
      by_cases hk : k' = k
      · subst hk
        simp [mapInsert] at hp
        rcases hp with rfl | hp
        · right; rfl
        · left; simp [hp]
      · simp [mapInsert, hk] at hp
        rcases hp with rfl | hp
        · left; simp
        · rcases ih hp with h1 | h1
          · left; simp [h1]
          · right; exact h1

theorem natDecimalAux_digits (fuel : Nat) : ∀ n, (natDecimalAux fuel n).all Char.isDigit = true := by
  induction fuel with
  | zero => intro n; simp [natDecimalAux]
  | succ fuel ih =>
      intro n
      by_cases hn : n = 0
      · simp [natDecimalAux, hn]
      · simp only [natDecimalAux, hn, if_false, List.all_append, ih (n / 10), Bool.true_and,
          List.all_cons, List.all_nil, Bool.and_true]
        have hr : n % 10 < 10 := Nat.mod_lt _ (by norm_num)
        interval_cases h : n % 10 <;> decide

theorem natDecimal_digits (n : Nat) : (natDecimal n).data.all Char.isDigit = true := by
  by_cases hn : n = 0
  · simp [natDecimal, hn]
  · simpa [natDecimal, hn] using natDecimalAux_digits n n

theorem natDecimal_ne_empty (n : Nat) : natDecimal n ≠ "" := by
  by_cases hn : n = 0
  · simp [natDecimal, hn]
  · simp only [natDecimal, hn, if_false]
    obtain ⟨fuel, hf⟩ : ∃ fuel, n = fuel + 1 := ⟨n - 1, by omega⟩
    intro hcon
    have : natDecimalAux n n = [] := congrArg String.data hcon
    rw [hf] at this
    simp [natDecimalAux, hn, hf] at this

theorem digits_ne_update_append (k a : String) (hdig : k.data.all Char.isDigit = true) :
    k ≠ "update." ++ a := by
  intro hcon
  have hdata : k.data = "update.".data ++ a.data := by
    rw [hcon]; exact String.data_append _ _
  have hu : "update.".data = ['u', 'p', 'd', 'a', 't', 'e', '.'] := rfl
  rw [hu] at hdata
  rw [hdata] at hdig
  simp [List.all_cons] at hdig

theorem natDecimal_ne_update_append (n : Nat) (a : String) :
    natDecimal n ≠ "update." ++ a :=
  digits_ne_update_append _ a (natDecimal_digits n)

theorem intDecimal_ne_update_append (n : Int) (a : String) :
    intDecimal n ≠ "update." ++ a := by
  unfold intDecimal
  by_cases hn : n < 0
  · simp only [hn, if_true]
    intro hcon
    have hdata : ("-" ++ natDecimal n.natAbs).data = "update.".data ++ a.data := by
      rw [hcon]; exact String.data_append _ _
    rw [String.data_append] at hdata
    have hminus : ("-").data = ['-'] := rfl
    have hu : "update.".data = 'u' :: "pdate.".data := rfl
    rw [hminus, hu] at hdata
    simp at hdata
  · simp only [hn, if_false]
    exact natDecimal_ne_update_append _ a

theorem invoke_table_aux (P : List (String × JsValue) → Prop)
    (hIns : ∀ m a v, P m → P (mapInsert m ("update." ++ a) v)) :
    ∀ N f st args, sizeOf f ≤ N → P st.handler_map → P ((invoke st f args).1).handler_map := by
  intro N
  induction N with
  | zero =>
      intro f st args hle _
      exfalso
      cases f <;> simp at hle
  | succ N ih =>
      intro f st args hle hP
      cases f with
      | fn h =>
          cases h with
          | userCb tag => simpa [invoke] using hP
          | fetchAdapter cb =>
              have hcb : sizeOf cb ≤ N := by simp at hle; omega
              simp only [invoke]
              split
              · simpa using hP
              · rename_i e v heq
                exact ih cb st [e, v] hcb hP
          | subUpdater addr hf hu =>
              have hhf : sizeOf hf ≤ N := by simp at hle; omega
              simp only [invoke]
              split
              · simpa using hP
              · rename_i e v heq
                have hP2 : P ((invoke st hf [e, v]).1).handler_map := ih hf st [e, v] hhf hP
                split
                · rename_i st2 er hinv
                  rw [hinv] at hP2
                  simpa using hP2
                · rename_i st2 hinv
                  rw [hinv] at hP2
                  by_cases ht : truthy hu
                  · simpa [ht] using hIns _ addr hu hP2
                  · simpa [ht] using hP2
      | undef => simpa [invoke] using hP
      | null => simpa [invoke] using hP
      | bool b => simpa [invoke] using hP
      | num n => simpa [invoke] using hP
      | str s => simpa [invoke] using hP
      | arr xs => simpa [invoke] using hP
      | obj fs => simpa [invoke] using hP

theorem invoke_table (P : List (String × JsValue) → Prop)
    (hIns : ∀ m a v, P m → P (mapInsert m ("update." ++ a) v))
    (f : JsValue) (st : GatewayState) (args : List JsValue)
    (hP : P st.handler_map) : P ((invoke st f args).1).handler_map :=
  invoke_table_aux P hIns (sizeOf f) f st args (Nat.le_refl _) hP

theorem invoke_events_aux :
    ∀ N f st args, sizeOf f ≤ N →
      ((invoke st f args).1).events.length ≤ st.events.length + 1 := by
  intro N
  induction N with
  | zero =>
      intro f st args hle
      exfalso
      cases f <;> simp at hle
  | succ N ih =>
      intro f st args hle
      cases f with
      | fn h =>
          cases h with
          | userCb tag => simp [invoke]
          | fetchAdapter cb =>
              have hcb : sizeOf cb ≤ N := by simp at hle; omega
              simp only [invoke]
              split
              · simp
              · rename_i e v heq
                exact ih cb st [e, v] hcb
          | subUpdater addr hf hu =>
              have hhf : sizeOf hf ≤ N := by simp at hle; omega
              simp only [invoke]
              split
              · simp
              · rename_i e v heq
                have hb : ((invoke st hf [e, v]).1).events.length ≤ st.events.length + 1 :=
                  ih hf st [e, v] hhf
                split
                · rename_i st2 er hinv
                  rw [hinv] at hb
                  simpa using hb
                · rename_i st2 hinv
                  rw [hinv] at hb
                  by_cases ht : truthy hu
                  · simpa [ht] using hb
                  · simpa [ht] using hb
      | undef => simp [invoke]
      | null => simp [invoke]
      | bool b => simp [invoke]
      | num n => simp [invoke]
      | str s => simp [invoke]
      | arr xs => simp [invoke]
      | obj fs => simp [invoke]

theorem invoke_events_le (f : JsValue) (st : GatewayState) (args : List JsValue) :
    ((invoke st f args).1).events.length ≤ st.events.length + 1 :=
  invoke_events_aux (sizeOf f) f st args (Nat.le_refl _)

/-- Characterization of a successful make_request call: the serialized
envelope is appended to the sent frames and the handler is bound under
the decimal key of the allocated id; nothing else changes. -/
theorem make_request_ok (st : GatewayState) (rand : Nat) (cmd : String)
    (params : List JsValue) (hh : JsHandler) :
    make_request st rand cmd params (.fn hh) =
      ({ st with
          sent := st.sent ++ [stringify (requestEnvelope rand cmd params)],
          handler_map := mapInsert st.handler_map
            (jsToKey (.num (_random_integer rand : Nat))) (.fn hh) }, none) := by
  rfl

theorem goodTable_insert {m : List (String × JsValue)} {k : String} {v : JsValue}
    (hk : KeyShaped k) (h : GoodTable m) : GoodTable (mapInsert m k v) := by
  refine ⟨nodup_fst_mapInsert h.1, ?_⟩
  intro p hp
  rcases mem_mapInsert hp with hmem | hkey
  · exact h.2 p hmem
  · rw [hkey]; exact hk

theorem keyShaped_requestKey (rand : Nat) :
    KeyShaped (jsToKey (.num (_random_integer rand : Nat))) := by
  left
  have hnn : ¬ ((_random_integer rand : Nat) : Int) < 0 := by
    have := Int.natCast_nonneg (_random_integer rand)
    omega
  simp only [jsToKey, intDecimal, hnn, if_false, Int.natAbs_ofNat]
  exact ⟨natDecimal_digits _, natDecimal_ne_empty _⟩

theorem goodTable_make_request (st : GatewayState) (rand : Nat) (cmd : String)
    (params : List JsValue) (handler : JsValue) (hG : GoodTable st.handler_map) :
    GoodTable ((make_request st rand cmd params handler).1).handler_map := by
  cases handler with
  | fn hh =>
      rw [make_request_ok]
      exact goodTable_insert (keyShaped_requestKey rand) hG
  | undef => simpa [make_request, _check_function] using hG
  | null => simpa [make_request, _check_function] using hG
  | bool b => simpa [make_request, _check_function] using hG
  | num n => simpa [make_request, _check_function] using hG
  | str s => simpa [make_request, _check_function] using hG
  | arr xs => simpa [make_request, _check_function] using hG
  | obj fs => simpa [make_request, _check_function] using hG

theorem goodTable_on_message (st : GatewayState) (data : String)
    (hG : GoodTable st.handler_map) : GoodTable ((_on_message st data).1).handler_map := by
  simp only [_on_message]
  split
  · simpa using hG
  · split
    · exact hG
    · exact hG
    · rename_i response h1 h2
      split
      · exact invoke_table GoodTable
          (fun m a v hm => goodTable_insert (Or.inr ⟨a, rfl⟩) hm) _ _ _ hG
      · exact hG

theorem goodTable_fetch_wrapper (st : GatewayState) (rand : Nat) (cmd : String)
    (params : List JsValue) (hf : JsValue) (hG : GoodTable st.handler_map) :
    GoodTable ((match _check_function hf with
      | some er => (st, some er)
      | none => make_request st rand cmd params (.fn (.fetchAdapter hf))).1).handler_map := by
  cases hf with
  | fn hh =>
      simpa [_check_function] using
        goodTable_make_request st rand cmd params (.fn (.fetchAdapter (.fn hh))) hG
  | undef => simpa [_check_function] using hG
  | null => simpa [_check_function] using hG
  | bool b => simpa [_check_function] using hG
  | num n => simpa [_check_function] using hG
  | str s => simpa [_check_function] using hG
  | arr xs => simpa [_check_function] using hG
  | obj fs => simpa [_check_function] using hG

theorem reachable_goodTable {st : GatewayState} (h : Reachable st) :
    GoodTable st.handler_map := by
  induction h with
  | init => exact ⟨by simp [initState], by simp [initState]⟩
  | mk_request _ ih => exact goodTable_make_request _ _ _ _ _ ih
  | on_msg _ ih => exact goodTable_on_message _ _ ih
  | sub _ ih => exact goodTable_make_request _ _ _ _ _ ih
  | ren _ ih => exact goodTable_make_request _ _ _ _ _ ih
  | flh _ ih => exact goodTable_fetch_wrapper _ _ _ _ _ ih
  | ftx _ ih => exact goodTable_fetch_wrapper _ _ _ _ _ ih
  | fhi _ ih => exact goodTable_fetch_wrapper _ _ _ _ _ ih
  | fbh _ ih => exact goodTable_fetch_wrapper _ _ _ _ _ ih
  | fbt _ ih => exact goodTable_fetch_wrapper _ _ _ _ _ ih
  | fsp _ ih => exact goodTable_fetch_wrapper _ _ _ _ _ ih

/-! ## Claims -/

/-- Claim C1, counterexample to the claim as stated: injecting the
non-JSON frame "garbage" makes _on_message propagate a thrown
SyntaxError; nothing is logged, so the frame is not "logged and
dropped" and processing does not complete normally. -/
theorem C1_counterexample :
    (_on_message initState "garbage").2 = some JsErr.syntaxError
    ∧ ((_on_message initState "garbage").1).log = []
    ∧ ((_on_message initState "garbage").1).events = [] := by
  exact ⟨rfl, rfl, rfl⟩

/-- Claim C1 (amended): for every inbound frame whose data is not
parseable as JSON, the router fires the frame-observed hook and then
the JSON.parse failure propagates as a thrown SyntaxError (there is no
try/catch): no callback fires, nothing is logged, and the handler table
is unchanged. -/
theorem C1_malformed_frame_throws (st : GatewayState) (data : String)
    (hbad : JSON_parse data = none) :
    _on_message st data =
      ({ st with observed := st.observed ++ [data] }, some JsErr.syntaxError) := by
  simp only [_on_message, hbad]

/-- Claim C1 witness: the amended claim at the concrete frame
"garbage". -/
theorem C1_witness :
    JSON_parse "garbage" = none
    ∧ _on_message initState "garbage" =
        ({ initState with observed := ["garbage"] }, some JsErr.syntaxError) :=
  ⟨rfl, C1_malformed_frame_throws initState "garbage" rfl⟩

/-- Claim C2, counterexample to the claim as stated: subscribe with the
non-invocable ack callback 5 does not fail with InvalidHandler — it
returns normally and hands the subscribe frame to the transport. -/
theorem C2_counterexample :
    (subscribe initState 0 "abc" (JsValue.num 5) JsValue.undef).2 = none
    ∧ ((subscribe initState 0 "abc" (JsValue.num 5) JsValue.undef).1).sent =
        ["\x7b\"id\":0,\"command\":\"subscribe_address\",\"params\":[\"abc\"]\x7d"] := by
  exact ⟨rfl, rfl⟩

/-- Claim C2 (amended): make_request and every fetch_* wrapper called
with a non-invocable callback fail synchronously with the thrown string
"Parameter is not a function" (InvalidHandler) before anything is sent,
leaving the state unchanged; subscribe and renew, however, perform no
such check: they send their request frame and register the ack closure
regardless of the callback's invocability. -/
theorem C2_invalid_handler (st : GatewayState) (rand : Nat) (cmd : String)
    (params : List JsValue) (cb : JsValue) (hcb : ∀ hh : JsHandler, cb ≠ JsValue.fn hh) :
    make_request st rand cmd params cb =
      (st, some (JsErr.thrownString "Parameter is not a function"))
    ∧ fetch_last_height st rand cb =
        (st, some (JsErr.thrownString "Parameter is not a function"))
    ∧ (∀ tx, fetch_transaction st rand tx cb =
        (st, some (JsErr.thrownString "Parameter is not a function")))
    ∧ (∀ a, fetch_history st rand a cb =
        (st, some (JsErr.thrownString "Parameter is not a function")))
    ∧ (∀ i, fetch_block_header st rand i cb =
        (st, some (JsErr.thrownString "Parameter is not a function")))
    ∧ (∀ i, fetch_block_transaction_hashes st rand i cb =
        (st, some (JsErr.thrownString "Parameter is not a function")))
    ∧ (∀ o, fetch_spend st rand o cb =
        (st, some (JsErr.thrownString "Parameter is not a function")))
    ∧ (∀ addr hu, subscribe st rand addr cb hu =
        ({ st with
            sent := st.sent ++ [stringify (requestEnvelope rand "subscribe_address" [.str addr])],
            handler_map := mapInsert st.handler_map
              (jsToKey (.num (_random_integer rand : Nat)))
              (.fn (.subUpdater addr cb hu)) }, none))
    ∧ (∀ addr hu, renew st rand addr cb hu =
        ({ st with
            sent := st.sent ++ [stringify (requestEnvelope rand "renew_address" [.str addr])],
            handler_map := mapInsert st.handler_map
              (jsToKey (.num (_random_integer rand : Nat)))
              (.fn (.subUpdater addr cb hu)) }, none)) := by
  have hchk : _check_function cb = some (.thrownString "Parameter is not a function") := by
    cases cb with
    | fn hh => exact absurd rfl (hcb hh)
    | undef => rfl
    | null => rfl
    | bool b => rfl
    | num n => rfl
    | str s => rfl
    | arr xs => rfl
    | obj fs => rfl
  refine ⟨?_, ?_, ?_, ?_, ?_, ?_, ?_, ?_, ?_⟩
  · simp [make_request, hchk]
  · simp [fetch_last_height, hchk]
  · intro tx; simp [fetch_transaction, hchk]
  · intro a; simp [fetch_history, hchk]
  · intro i; simp [fetch_block_header, hchk]
  · intro i; simp [fetch_block_transaction_hashes, hchk]
  · intro o; simp [fetch_spend, hchk]
  · intro addr hu; exact make_request_ok st rand "subscribe_address" [.str addr] _
  · intro addr hu; exact make_request_ok st rand "renew_address" [.str addr] _

/-- Claim C2 witness: the amended claim at the non-invocable callback 5:
make_request throws InvalidHandler and sends nothing, while subscribe
sends its frame. -/
theorem C2_witness :
    make_request initState 3 "fetch_last_height" [] (JsValue.num 5) =
      (initState, some (JsErr.thrownString "Parameter is not a function"))
    ∧ ((subscribe initState 3 "abc" (JsValue.num 5) JsValue.undef).1).sent.length = 1 := by
  have h := C2_invalid_handler initState 3 "fetch_last_height" [] (JsValue.num 5)
    (fun hh hcon => JsValue.noConfusion hcon)
  refine ⟨h.1, ?_⟩
  rw [(h.2.2.2.2.2.2.2.1 "abc" JsValue.undef)]
  rfl

/-- Claim C3, counterexample to the claim as stated: make_request is
the trace [send, register] (third conjunct), and after executing only
its first step from a fresh client the envelope has been handed to the
transport while the allocated id "7" is still unregistered — an
intermediate step at which the request is sent but not routable. -/
theorem C3_counterexample :
    (runTrace initState
        ((make_request_trace 7 "fetch_last_height" [] (JsValue.fn (.userCb 0))).take 1)).sent =
      ["\x7b\"id\":7,\"command\":\"fetch_last_height\",\"params\":[]\x7d"]
    ∧ objGet (runTrace initState
        ((make_request_trace 7 "fetch_last_height" [] (JsValue.fn (.userCb 0))).take 1)).handler_map
        "7" = JsValue.undef
    ∧ make_request initState 7 "fetch_last_height" [] (JsValue.fn (.userCb 0)) =
        (runTrace initState (make_request_trace 7 "fetch_last_height" [] (JsValue.fn (.userCb 0))),
         none) := by
  exact ⟨rfl, rfl, rfl⟩

/-- Claim C3 (amended): a successful make_request performs exactly the
two-step trace send-then-register within one synchronous invocation —
the send comes first and the registration is the immediately following
step — and when the call returns, the envelope has been sent and the
handler is registered under the allocated id. -/
theorem C3_registration_follows_send (st : GatewayState) (rand : Nat) (cmd : String)
    (params : List JsValue) (hh : JsHandler) :
    make_request st rand cmd params (.fn hh) =
      (runTrace st (make_request_trace rand cmd params (.fn hh)), none)
    ∧ make_request_trace rand cmd params (.fn hh) =
        [MicroOp.sendOp (stringify (requestEnvelope rand cmd params)),
         MicroOp.registerOp (jsToKey (.num (_random_integer rand : Nat))) (.fn hh)]
    ∧ ((make_request st rand cmd params (.fn hh)).1).sent =
        st.sent ++ [stringify (requestEnvelope rand cmd params)]
    ∧ objGet ((make_request st rand cmd params (.fn hh)).1).handler_map
        (jsToKey (.num (_random_integer rand : Nat))) = .fn hh := by
  refine ⟨rfl, rfl, ?_, ?_⟩
  · simp only [make_request_ok]
  · simp only [make_request_ok]
    exact objGet_mapInsert_self _ _ _

/-- Claim C4, counterexample to the claim as stated: "null" is a
parseable frame (JSON.parse succeeds) on which the router raises a
thrown TypeError while reading response.id — no callback fires but no
"unroutable frame" report is logged either, contradicting the claimed
dichotomy for every parseable frame. -/
theorem C4_counterexample :
    JSON_parse "null" = some JsValue.null
    ∧ (_on_message initState "null").2 =
        some (JsErr.typeError "Cannot read properties of null")
    ∧ ((_on_message initState "null").1).log = []
    ∧ ((_on_message initState "null").1).events = [] := by
  exact ⟨rfl, rfl, rfl, rfl⟩

/-- Claim C4 (amended): for every parseable inbound frame whose parsed
value is not the JSON literal null, the router derives one correlation
key — "update." + address when the frame carries name == "update",
otherwise the frame's id — and: if no truthy handler is registered
under that key it logs "Handler not found" and returns normally with no
callback fired and the table unchanged; if one is registered the router
invokes exactly that handler, and at most one callback fires per frame.
A frame that parses to null instead raises a TypeError. -/
theorem C4_router_dispatch (st : GatewayState) (data : String) (response : JsValue)
    (hp : JSON_parse data = some response) (hnn : response ≠ JsValue.null)
    (hnu : response ≠ JsValue.undef) :
    (truthy (objGet st.handler_map (deriveKey response)) = false →
      _on_message st data =
        ({ st with
            observed := st.observed ++ [data],
            log := st.log ++ ["Handler not found"] }, none))
    ∧ (truthy (objGet st.handler_map (deriveKey response)) = true →
      _on_message st data =
        invoke { st with observed := st.observed ++ [data] }
          (objGet st.handler_map (deriveKey response)) [response])
    ∧ ((_on_message st data).1).events.length ≤ st.events.length + 1 := by
  have key : _on_message st data =
      (if truthy (objGet st.handler_map (deriveKey response)) then
        invoke { st with observed := st.observed ++ [data] }
          (objGet st.handler_map (deriveKey response)) [response]
      else
        ({ st with
            observed := st.observed ++ [data],
            log := st.log ++ ["Handler not found"] }, none)) := by
    simp only [_on_message, hp]
  refine ⟨fun hf => ?_, fun ht => ?_, ?_⟩
  · rw [key]
    simp [hf]
  · rw [key]
    simp [ht]
  · rw [key]
    by_cases htr : truthy (objGet st.handler_map (deriveKey response)) = true
    · rw [if_pos htr]
      exact invoke_events_le _ _ _
    · rw [if_neg htr]
      simp

/-- Claim C4 witness: the amended claim at a concrete unroutable
response frame on a fresh client: the frame is observed, "Handler not
found" is logged, no callback fires, and no failure is raised. -/
theorem C4_witness :
    _on_message initState "\x7b\"id\":9\x7d" =
      ({ initState with
          observed := ["\x7b\"id\":9\x7d"],
          log := ["Handler not found"] }, none) :=
  (C4_router_dispatch initState "\x7b\"id\":9\x7d" (JsValue.obj [("id", JsValue.num 9)])
      rfl (fun hcon => JsValue.noConfusion hcon) (fun hcon => JsValue.noConfusion hcon)).1 rfl

/-- Claim C5: in every reachable state each correlation key has at most
one binding in the handler table (the key list is duplicate-free), a
make_request registration always succeeds and afterwards the allocated
key maps to the new handler — also when the key was already bound —
and likewise the topic-key registration performed by a subscribe/renew
ack replaces any previous binding: last registration wins. -/
theorem C5_table_at_most_one (st : GatewayState) (h : Reachable st) :
    ((st.handler_map.map Prod.fst).Nodup)
    ∧ (∀ rand cmd params (hh : JsHandler),
        (make_request st rand cmd params (.fn hh)).2 = none
        ∧ objGet ((make_request st rand cmd params (.fn hh)).1).handler_map
            (jsToKey (.num (_random_integer rand : Nat))) = .fn hh)
    ∧ (∀ a hu, objGet (mapInsert st.handler_map ("update." ++ a) hu) ("update." ++ a) = hu) := by
  refine ⟨(reachable_goodTable h).1, ?_, ?_⟩
  · intro rand cmd params hh
    constructor
    · rw [make_request_ok]
    · simp only [make_request_ok]
      exact objGet_mapInsert_self _ _ _
  · intro a hu
    exact objGet_mapInsert_self _ _ _

/-- Claim C5 witness: the invariant at a concrete reachable state —
after two make_request calls that collide on id 7, the key "7" is bound
exactly once, to the latest handler. -/
theorem C5_witness :
    (((make_request initState 7 "fetch_last_height" [] (.fn (.userCb 0))).1).handler_map.map
        Prod.fst).Nodup
    ∧ objGet ((make_request (make_request initState 7 "fetch_last_height" []
          (.fn (.userCb 0))).1 7 "fetch_history" [] (.fn (.userCb 1))).1).handler_map "7" =
        .fn (.userCb 1)
    ∧ ((make_request (make_request initState 7 "fetch_last_height" []
          (.fn (.userCb 0))).1 7 "fetch_history" [] (.fn (.userCb 1))).1).handler_map.length = 1 := by
  refine ⟨(C5_table_at_most_one _ (Reachable.mk_request Reachable.init)).1, ?_, rfl⟩
  have h := ((C5_table_at_most_one _
    (@Reachable.mk_request initState 7 "fetch_last_height" [] (.fn (.userCb 0))
      Reachable.init)).2.1 7 "fetch_history" [] (.userCb 1)).2
  exact h

/-- Claim C6: for subscribe (and renew) with a truthy update handler,
the call itself sends the request, leaves the topic key
"update." + address bound exactly as before, and registers only the ack
closure under the request id; the update handler is registered under
the topic key only when the ack response is routed to that closure, and
only after the ack callback has been invoked — a failed argument
extraction or a throwing ack callback leaves the topic key untouched. -/
theorem C6_update_registration_at_ack (st : GatewayState) (rand : Nat) (addr : String)
    (t : Nat) (hu : JsValue) (htr : truthy hu = true) :
    (subscribe st rand addr (.fn (.userCb t)) hu).2 = none
    ∧ ((subscribe st rand addr (.fn (.userCb t)) hu).1).sent =
        st.sent ++ [stringify (requestEnvelope rand "subscribe_address" [.str addr])]
    ∧ objGet ((subscribe st rand addr (.fn (.userCb t)) hu).1).handler_map
        ("update." ++ addr) = objGet st.handler_map ("update." ++ addr)
    ∧ (renew st rand addr (.fn (.userCb t)) hu).2 = none
    ∧ objGet ((renew st rand addr (.fn (.userCb t)) hu).1).handler_map
        ("update." ++ addr) = objGet st.handler_map ("update." ++ addr)
    ∧ (∀ st2 resp e v, extractPair resp = .ok (e, v) →
        invoke st2 (.fn (.subUpdater addr (.fn (.userCb t)) hu)) [resp] =
          ({ st2 with
              handler_map := mapInsert st2.handler_map ("update." ++ addr) hu,
              events := st2.events ++ [(t, [e, v])] }, none))
    ∧ (∀ st2 resp er, extractPair resp = .error er →
        invoke st2 (.fn (.subUpdater addr (.fn (.userCb t)) hu)) [resp] = (st2, some er)) := by
  refine ⟨?_, ?_, ?_, ?_, ?_, ?_, ?_⟩
  · rw [subscribe, make_request_ok]
  · rw [subscribe, make_request_ok]
  · rw [subscribe, make_request_ok]
    exact objGet_mapInsert_ne _ _ _ _ (intDecimal_ne_update_append _ _)
  · rw [renew, make_request_ok]
  · rw [renew, make_request_ok]
    exact objGet_mapInsert_ne _ _ _ _ (intDecimal_ne_update_append _ _)
  · intro st2 resp e v hex
    simp [invoke, hex, htr]
  · intro st2 resp er hex
    simp [invoke, hex]

/-- Claim C6 witness: the concrete scenario — subscribing to "abc" on a
fresh client leaves "update.abc" unbound, and routing the ack response
to the registered closure first fires the ack callback and then binds
"update.abc" to the update handler. -/
theorem C6_witness :
    objGet ((subscribe initState 0 "abc" (.fn (.userCb 0)) (.fn (.userCb 1))).1).handler_map
        "update.abc" = JsValue.undef
    ∧ invoke initState (.fn (.subUpdater "abc" (.fn (.userCb 0)) (.fn (.userCb 1))))
        [.obj [("error", .null), ("result", .arr [.bool true])]] =
        ({ initState with
            handler_map := [("update.abc", .fn (.userCb 1))],
            events := [(0, [JsValue.null, JsValue.bool true])] }, none) := by
  have h := C6_update_registration_at_ack initState 0 "abc" 0 (.fn (.userCb 1)) rfl
  exact ⟨h.2.2.1, h.2.2.2.2.2.1 initState
    (.obj [("error", .null), ("result", .arr [.bool true])]) .null (.bool true) rfl⟩

/-- Claim C7: renewing with no update handler (handle_update is
undefined): the call leaves the topic key bound exactly as before, and
routing the ack response to the registered closure never modifies the
handler table at all — the prior update handler is neither replaced nor
cleared and no new entry is created. -/
theorem C7_renew_without_update (st : GatewayState) (rand : Nat) (addr : String) (t : Nat) :
    (renew st rand addr (.fn (.userCb t)) .undef).2 = none
    ∧ objGet ((renew st rand addr (.fn (.userCb t)) .undef).1).handler_map
        ("update." ++ addr) = objGet st.handler_map ("update." ++ addr)
    ∧ (∀ st2 resp,
        ((invoke st2 (.fn (.subUpdater addr (.fn (.userCb t)) .undef)) [resp]).1).handler_map =
          st2.handler_map) := by
  refine ⟨?_, ?_, ?_⟩
  · rw [renew, make_request_ok]
  · rw [renew, make_request_ok]
    exact objGet_mapInsert_ne _ _ _ _ (intDecimal_ne_update_append _ _)
  · intro st2 resp
    simp only [invoke]
    split
    · rfl
    · rename_i e v hex
      rfl

/-- Claim C8: dispatching fetch_last_height sends exactly one frame —
the serialization of the envelope with fields id, command
"fetch_last_height" and empty params — and registers the adapter that
unpacks (error, result[0]); routing a response frame carrying that id,
an error value and a result array then invokes the caller's callback
with exactly the pair (error, result[0]). -/
theorem C8_fetch_last_height (st : GatewayState) (rand : Nat) (t : Nat) :
    fetch_last_height st rand (.fn (.userCb t)) =
      ({ st with
          sent := st.sent ++ [stringify (requestEnvelope rand "fetch_last_height" [])],
          handler_map := mapInsert st.handler_map (jsToKey (.num (_random_integer rand : Nat)))
            (.fn (.fetchAdapter (.fn (.userCb t)))) }, none)
    ∧ (∀ st2 data (j : Int) (e v : JsValue) (rest : List JsValue),
        JSON_parse data = some (.obj [("id", .num j), ("error", e), ("result", .arr (v :: rest))]) →
        objGet st2.handler_map (intDecimal j) = .fn (.fetchAdapter (.fn (.userCb t))) →
        _on_message st2 data =
          ({ st2 with
              observed := st2.observed ++ [data],
              events := st2.events ++ [(t, [e, v])] }, none)) := by
  constructor
  · rfl
  · intro st2 data j e v rest hp hlook
    have hd : deriveKey (JsValue.obj [("id", .num j), ("error", e), ("result", .arr (v :: rest))]) =
        intDecimal j := rfl
    simp only [_on_message, hp, hd, hlook]
    have hex : extractPair (JsValue.obj [("id", .num j), ("error", e), ("result", .arr (v :: rest))]) =
        .ok (e, v) := rfl
    simp [invoke, hex, truthy]

/-- Claim C8 witness: the concrete scenario with id 7 — the transport
receives the literal request text, and injecting the literal response
with result [12345] invokes the callback with (null, 12345). -/
theorem C8_witness :
    ((fetch_last_height initState 7 (.fn (.userCb 0))).1).sent =
      ["\x7b\"id\":7,\"command\":\"fetch_last_height\",\"params\":[]\x7d"]
    ∧ _on_message (fetch_last_height initState 7 (.fn (.userCb 0))).1
        "\x7b\"id\":7,\"error\":null,\"result\":[12345]\x7d" =
      ({ (fetch_last_height initState 7 (.fn (.userCb 0))).1 with
          observed := ["\x7b\"id\":7,\"error\":null,\"result\":[12345]\x7d"],
          events := [(0, [JsValue.null, JsValue.num 12345])] }, none) := by
  have h := C8_fetch_last_height initState 7 0
  constructor
  · rw [h.1]
    rfl
  · exact h.2 (fetch_last_height initState 7 (.fn (.userCb 0))).1
      "\x7b\"id\":7,\"error\":null,\"result\":[12345]\x7d" 7 JsValue.null (JsValue.num 12345) []
      rfl rfl

/-- Claim C9: in every reachable state every key in the handler table
is either a digit string (a make_request registration, the decimal
numeral of a value of _random_integer) or a topic key beginning with
"update."; the two spaces are disjoint — no request key equals any
topic key — and the router keeps them apart: an update frame derives a
key of topic shape, never a request key, while a frame with a numeric
id derives a key that is never a topic key. -/
theorem C9_keyspaces_disjoint (st : GatewayState) (h : Reachable st) :
    (∀ p ∈ st.handler_map,
        (p.1.data.all Char.isDigit = true ∧ p.1 ≠ "") ∨ ∃ a, p.1 = "update." ++ a)
    ∧ (∀ rand addr, jsToKey (.num (_random_integer rand : Nat)) ≠ "update." ++ addr)
    ∧ (∀ response, looseEqUpdate (getFieldD response "name") = true →
        deriveKey response = "update." ++ jsToKey (getFieldD response "address")
        ∧ ∀ rand, deriveKey response ≠ jsToKey (.num (_random_integer rand : Nat)))
    ∧ (∀ response (n : Int), looseEqUpdate (getFieldD response "name") = false →
        getFieldD response "id" = .num n →
        ∀ addr, deriveKey response ≠ "update." ++ addr) := by
  refine ⟨(reachable_goodTable h).2, ?_, ?_, ?_⟩
  · intro rand addr
    exact intDecimal_ne_update_append _ _
  · intro response hupd
    constructor
    · simp only [deriveKey, hupd, if_true]
    · intro rand
      simp only [deriveKey, hupd, if_true]
      intro hcon
      exact intDecimal_ne_update_append _ _ hcon.symm
  · intro response n hnupd hid addr
    simp only [deriveKey, hnupd, Bool.false_eq_true, if_false, hid]
    exact intDecimal_ne_update_append _ _

/-- Claim C9 witness: the disjointness at concrete inputs — the request
key allocated from randomness 7 is not the topic key for address
"abc". -/
theorem C9_witness :
    jsToKey (JsValue.num (_random_integer 7 : Nat)) ≠ "update." ++ "abc" :=
  (C9_keyspaces_disjoint initState Reachable.init).2.1 7 "abc"

/-- Claim C10, counterexample to the claim as stated: routing a
response frame with no "result" field to a registered fetch adapter
does not invoke the caller's handler with an undefined result — the
read response["result"][0] throws a TypeError before the call, so no
callback fires and the failure propagates. -/
theorem C10_counterexample :
    (_on_message (fetch_last_height initState 7 (.fn (.userCb 0))).1
        "\x7b\"id\":7,\"error\":null\x7d").2 =
      some (JsErr.typeError "Cannot read properties of undefined")
    ∧ ((_on_message (fetch_last_height initState 7 (.fn (.userCb 0))).1
        "\x7b\"id\":7,\"error\":null\x7d").1).events = [] := by
  exact ⟨rfl, rfl⟩

/-- Claim C10 (amended): the fetch adapters read response["error"] and
response["result"][0] with no shape check.  When the routed response
carries a result that is a non-empty array the extraction is
well-defined and yields (error, result[0]); when the result is an empty
array the handler is still invoked and receives undefined; when the
result field is absent the indexing throws a TypeError before the
handler is invoked, so the callback does not fire and the failure
propagates. -/
theorem C10_result_extraction (idv e v : JsValue) (rest : List JsValue)
    (st : GatewayState) (t : Nat) :
    extractPair (.obj [("id", idv), ("error", e), ("result", .arr (v :: rest))]) = .ok (e, v)
    ∧ extractPair (.obj [("id", idv), ("error", e), ("result", .arr [])]) = .ok (e, .undef)
    ∧ invoke st (.fn (.fetchAdapter (.fn (.userCb t))))
        [.obj [("id", idv), ("error", e), ("result", .arr [])]] =
        ({ st with events := st.events ++ [(t, [e, .undef])] }, none)
    ∧ extractPair (.obj [("id", idv), ("error", e)]) =
        .error (.typeError "Cannot read properties of undefined")
    ∧ invoke st (.fn (.fetchAdapter (.fn (.userCb t))))
        [.obj [("id", idv), ("error", e)]] =
        (st, some (.typeError "Cannot read properties of undefined")) := by
  exact ⟨rfl, rfl, rfl, rfl, rfl⟩
